import Mathlib

/-
  Verification development for the oneprojectapp backend.

  The definitions below are a shallow embedding of the route handlers in
  src/unnamed/part_000 (the final evolution of server.js).  The Postgres
  tables touched by those handlers (email_tokens, clients, projects, users,
  team_members) are modelled as lists of rows inside a DB record; SQL
  statements become pure functions from DB to DB.  NOW() is passed in as an
  explicit natural-number timestamp (seconds), so the 3-minute token TTL is
  180.  Randomly generated codes and UUID session ids are passed in as
  parameters.  Postgres upsert semantics are modelled faithfully:
  ON CONFLICT ... DO UPDATE updates the conflicting row, ON CONFLICT ... DO
  NOTHING with RETURNING yields no row on conflict, and a NULL value in a
  uniquely-constrained column never conflicts with anything.
-/

namespace OneProject

/-- Row of the email_tokens table.  Columns as inserted by the handlers:
email, token, expires_at, attempts, session_id, verified, and the
pending_password column written only by the send-verification route. -/
structure TokenRow where
  email : String
  token : String
  expiresAt : Nat
  attempts : Nat
  sessionId : String
  verified : Bool
  pendingPassword : Option String
  deriving DecidableEq, Repr

/-- Row of the clients table (columns used by part_000). -/
structure ClientRow where
  id : Nat
  companyName : String
  companyEmail : String
  representativeName : String
  title : String
  phoneNumber : String
  passwordHash : Option String
  verified : Bool
  createdAt : Nat
  deriving DecidableEq, Repr

/-- Row of the projects table. -/
structure ProjectRow where
  id : Nat
  name : String
  location : String
  contractReference : String
  clientId : Nat
  createdAt : Nat
  deriving DecidableEq, Repr

/-- Row of the users table, as inserted by the finalize-account handler.
Columns not supplied by an INSERT default to NULL (none). -/
structure UserRow where
  role : String
  companyName : Option String
  email : Option String
  representativeName : Option String
  title : Option String
  phoneNumber : Option String
  projectId : Option Nat
  passwordHash : Option String
  createdAt : Nat
  deriving DecidableEq, Repr

/-- Row of the team_members table.  part_000 only reads and updates this
table (login and password reset), so only the columns those routes touch
are modelled. -/
structure TMRow where
  email : String
  passwordHash : Option String
  verified : Bool
  deriving DecidableEq, Repr

/-- The whole datastore: one list per table, plus the serial id counters
that back the RETURNING id clauses. -/
structure DB where
  emailTokens : List TokenRow
  clients : List ClientRow
  projects : List ProjectRow
  users : List UserRow
  teamMembers : List TMRow
  nextClientId : Nat
  nextProjectId : Nat
  deriving DecidableEq, Repr

/-- A database with no rows at all. -/
def emptyDB : DB := ⟨[], [], [], [], [], 1, 1⟩

/-- JavaScript truthiness of an optional string: undefined, null and the
empty string are falsy, every other string is truthy. -/
def truthy : Option String → Bool
  | none => false
  | some s => decide (s ≠ "")

/- ------------------------------------------------------------------
   POST /verify-code  (part_000 lines 73-97)
   ------------------------------------------------------------------ -/

/-- Predicate of the SELECT in /verify-code: email, session_id and token all
match, expires_at is greater than NOW(), and verified is false. -/
def tokenPred (now : Nat) (email sessionId code : String) (r : TokenRow) : Bool :=
  decide (r.email = email ∧ r.sessionId = sessionId ∧ r.token = code ∧
          now < r.expiresAt ∧ r.verified = false)

/-- Result rows of the SELECT in /verify-code. -/
def tokenMatches (db : DB) (now : Nat) (email sessionId code : String) : List TokenRow :=
  db.emailTokens.filter (tokenPred now email sessionId code)

/-- Effect on one clients row of UPDATE clients SET verified=true WHERE
company_email = email. -/
def markClientVerified (email : String) (c : ClientRow) : ClientRow :=
  if c.companyEmail = email then { c with verified := true } else c

/-- Effect on one email_tokens row of UPDATE email_tokens SET verified=true
WHERE email = email AND session_id = sessionId. -/
def markTokenVerified (email sessionId : String) (r : TokenRow) : TokenRow :=
  if r.email = email ∧ r.sessionId = sessionId then { r with verified := true } else r

/-- The two UPDATE statements run by /verify-code on a successful match. -/
def commitVerification (db : DB) (email sessionId : String) : DB :=
  { db with
      clients := db.clients.map (markClientVerified email),
      emailTokens := db.emailTokens.map (markTokenVerified email sessionId) }

/-- Response shape of /verify-code. -/
structure VerifyResp where
  verified : Bool
  deriving DecidableEq, Repr

/-- The /verify-code handler: select the matching unexpired unverified rows;
if none, answer verified=false and change nothing; otherwise run the two
UPDATEs and answer verified=true. -/
def verifyCode (db : DB) (now : Nat) (email sessionId code : String) : VerifyResp × DB :=
  if tokenMatches db now email sessionId code = [] then
    ({ verified := false }, db)
  else
    ({ verified := true }, commitVerification db email sessionId)

/- Helper lemmas about /verify-code, shared by the claim theorems below. -/

theorem verifyCode_of_matches_nil (db : DB) (now : Nat) (e s c : String)
    (h : tokenMatches db now e s c = []) :
    verifyCode db now e s c = ({ verified := false }, db) := by
  unfold verifyCode
  simp [h]

theorem verifyCode_of_matches_ne_nil (db : DB) (now : Nat) (e s c : String)
    (h : tokenMatches db now e s c ≠ []) :
    verifyCode db now e s c = ({ verified := true }, commitVerification db e s) := by
  unfold verifyCode
  simp [h]

theorem verifyCode_success_eq (db : DB) (now : Nat) (e s c : String)
    (h : (verifyCode db now e s c).1.verified = true) :
    verifyCode db now e s c = ({ verified := true }, commitVerification db e s) := by
  by_cases hm : tokenMatches db now e s c = []
  · rw [verifyCode_of_matches_nil db now e s c hm] at h
    simp at h
  · exact verifyCode_of_matches_ne_nil db now e s c hm

theorem markTokenVerified_of_match (e s : String) (x : TokenRow)
    (he : (markTokenVerified e s x).email = e)
    (hs : (markTokenVerified e s x).sessionId = s) :
    (markTokenVerified e s x).verified = true := by
  unfold markTokenVerified at *
  by_cases h : x.email = e ∧ x.sessionId = s
  · simp [h]
  · simp only [if_neg h] at he hs ⊢
    exact absurd ⟨he, hs⟩ h

theorem commitVerification_matches_nil (db : DB) (e s : String)
    (now' : Nat) (c' : String) :
    tokenMatches (commitVerification db e s) now' e s c' = [] := by
  unfold tokenMatches commitVerification
  rw [List.filter_eq_nil_iff]
  intro r hr
  obtain ⟨x, _, rfl⟩ := List.mem_map.mp hr
  unfold tokenPred
  simp only [decide_eq_true_eq, not_and]
  intro he hs _ _
  rw [markTokenVerified_of_match e s x he hs]
  simp

/- ------------------------------------------------------------------
   Claim theorems for /verify-code
   ------------------------------------------------------------------ -/

/-- C5: if no stored token row matches all three keys unexpired and
unverified (wrong code, wrong session, or expired or consumed token), then
verifyCode answers verified=false in the single fixed response shape, and
the database (in particular every clients and projects row) is returned
completely unchanged. -/
theorem verifyCode_no_match_rejects (db : DB) (now : Nat) (e s c : String)
    (h : tokenMatches db now e s c = []) :
    verifyCode db now e s c = ({ verified := false }, db) := by
  unfold verifyCode
  simp [h]

/-- Witness for C5 at a concrete input: the empty database matches nothing,
and the call answers verified=false leaving the database unchanged. -/
theorem verifyCode_no_match_rejects_w :
    verifyCode emptyDB 0 "a@b.com" "S1" "123456" = ({ verified := false }, emptyDB) :=
  verifyCode_no_match_rejects emptyDB 0 "a@b.com" "S1" "123456" rfl

/-- C10: a successful verifyCode call marks verified=true on every token row
whose email and session id match (not only the row whose code was
submitted), and afterwards no code at all can verify again for that
(email, session) pair: every later verifyCode call on the resulting state
answers verified=false. -/
theorem verifyCode_consumes_session (db : DB) (now : Nat) (e s c : String)
    (h : (verifyCode db now e s c).1.verified = true) :
    (∀ r ∈ (verifyCode db now e s c).2.emailTokens,
        r.email = e → r.sessionId = s → r.verified = true) ∧
    (∀ (now' : Nat) (c' : String),
        (verifyCode (verifyCode db now e s c).2 now' e s c').1.verified = false) := by
  rw [verifyCode_success_eq db now e s c h]
  constructor
  · intro r hr he hs
    obtain ⟨x, _, rfl⟩ := List.mem_map.mp hr
    exact markTokenVerified_of_match e s x he hs
  · intro now' c'
    rw [verifyCode_of_matches_nil _ now' e s c'
      (commitVerification_matches_nil db e s now' c')]

/-- A database holding one outstanding token for a@b.com (session S1, code
123456, unexpired at time 50) and the matching staged client row. -/
def dbA : DB :=
  { emailTokens := [⟨"a@b.com", "123456", 100, 0, "S1", false, none⟩],
    clients := [⟨1, "Acme", "a@b.com", "Rep", "CEO", "070", none, false, 0⟩],
    projects := [], users := [], teamMembers := [],
    nextClientId := 2, nextProjectId := 1 }

/-- Witness for C10 at a concrete input: verifying the token of dbA succeeds,
so every session token is consumed and no later code verifies. -/
theorem verifyCode_consumes_session_w :
    (∀ r ∈ (verifyCode dbA 50 "a@b.com" "S1" "123456").2.emailTokens,
        r.email = "a@b.com" → r.sessionId = "S1" → r.verified = true) ∧
    (∀ (now' : Nat) (c' : String),
        (verifyCode (verifyCode dbA 50 "a@b.com" "S1" "123456").2
          now' "a@b.com" "S1" c').1.verified = false) :=
  verifyCode_consumes_session dbA 50 "a@b.com" "S1" "123456" rfl

/-- C1 counterexample: after a first successful verifyCode call, a second
call with the very same (email, sessionId, code) triple does NOT report
idempotent success or already-verified: it answers verified=false, the
generic failure response.  (The Account row count does stay at 1.) -/
theorem verifyCode_second_call_cex :
    (verifyCode dbA 50 "a@b.com" "S1" "123456").1.verified = true ∧
    (verifyCode (verifyCode dbA 50 "a@b.com" "S1" "123456").2
        50 "a@b.com" "S1" "123456").1.verified = false ∧
    (verifyCode (verifyCode dbA 50 "a@b.com" "S1" "123456").2
        50 "a@b.com" "S1" "123456").2.clients.length = 1 := by
  decide

/-- C1 (amended): after a first successful verifyCode call, a second call
with the same (email, sessionId, code) triple finds no unverified matching
row and answers verified=false — the same no-match failure response — and
does not re-run the commit: the database is returned unchanged, so the
Account row count for that email stays at 1. -/
theorem verifyCode_second_call_no_recommit (db : DB) (now now' : Nat) (e s c c' : String)
    (h : (verifyCode db now e s c).1.verified = true) :
    verifyCode (verifyCode db now e s c).2 now' e s c' =
      ({ verified := false }, (verifyCode db now e s c).2) := by
  rw [verifyCode_success_eq db now e s c h]
  exact verifyCode_of_matches_nil _ now' e s c'
    (commitVerification_matches_nil db e s now' c')

/-- Witness for the amended C1 at a concrete input. -/
theorem verifyCode_second_call_no_recommit_w :
    verifyCode (verifyCode dbA 50 "a@b.com" "S1" "123456").2 60 "a@b.com" "S1" "123456" =
      ({ verified := false }, (verifyCode dbA 50 "a@b.com" "S1" "123456").2) :=
  verifyCode_second_call_no_recommit dbA 50 60 "a@b.com" "S1" "123456" "123456" rfl

/- ------------------------------------------------------------------
   POST /resend-verification  (part_000 lines 100-135)
   ------------------------------------------------------------------ -/

/-- Result row of SELECT attempts, session_id FROM email_tokens WHERE
email=$1 ORDER BY expires_at DESC LIMIT 1: the stored row for the email
with the greatest expires_at (none when the email has no row). -/
def latestTokenFor (db : DB) (email : String) : Option TokenRow :=
  (db.emailTokens.filter (fun r => decide (r.email = email))).foldl
    (fun acc r =>
      match acc with
      | none => some r
      | some b => if b.expiresAt < r.expiresAt then some r else acc)
    none

/-- Redirect target returned when the attempt cap is reached. -/
def verifyFailedUrl : String := "https://oneprojectapp.netlify.app/verify-failed.html"

/-- Response of /resend-verification: either success:false with a redirect,
or success:true with the session id of the new code. -/
inductive ResendResp where
  | refused (redirect : String)
  | resent (sessionId : String)
  deriving DecidableEq, Repr

/-- The /resend-verification handler: read the most recent token row for the
email; if it exists with attempts at least 2, answer success:false with the
verify-failed redirect and change nothing.  Otherwise insert a fresh token
row with TTL 180 seconds, attempts incremented (1 when the email had no
row), reusing the existing session id (a freshly generated one when the
email had no row). -/
def resendVerification (db : DB) (now : Nat) (email newCode freshSession : String) :
    ResendResp × DB :=
  match latestTokenFor db email with
  | some r =>
      if 2 ≤ r.attempts then (ResendResp.refused verifyFailedUrl, db)
      else
        (ResendResp.resent r.sessionId,
          { db with emailTokens := db.emailTokens ++
              [⟨email, newCode, now + 180, r.attempts + 1, r.sessionId, false, none⟩] })
  | none =>
      (ResendResp.resent freshSession,
        { db with emailTokens := db.emailTokens ++
            [⟨email, newCode, now + 180, 1, freshSession, false, none⟩] })

/-- C2 counterexample: with the most recent token row at attempts=2 and a
staged client, project and contractor row all present for a@b.com, the
resend request is refused but NOTHING is deleted: the database comes back
unchanged, with the client, project and user rows still in place, contrary
to the cascade delete the claim requires. -/
def dbB : DB :=
  { emailTokens := [⟨"a@b.com", "111111", 300, 2, "S1", false, none⟩],
    clients := [⟨1, "Acme", "a@b.com", "Rep", "CEO", "070", none, false, 0⟩],
    projects := [⟨1, "Tower", "Lagos", "CR-1", 1, 0⟩],
    users := [⟨"Contractor", some "BuildCo", some "c@x.com", some "Bob", some "PM",
               some "080", some 1, none, 0⟩],
    teamMembers := [], nextClientId := 2, nextProjectId := 2 }

/-- C2 counterexample theorem: the refused resend deletes no staged entity. -/
theorem resend_cap_no_cleanup_cex :
    (resendVerification dbB 0 "a@b.com" "222222" "S2").2 = dbB ∧
    dbB.clients.length = 1 ∧ dbB.projects.length = 1 ∧ dbB.users.length = 1 := by
  decide

/-- C2 (amended): when the most recent token row for the email has
attempts at least 2, resendVerification refuses to issue a new code and
signals the caller to restart the flow via the verify-failed redirect, but
performs NO cleanup: the database is returned unchanged, so no staged
Project, User or Client row is deleted. -/
theorem resend_cap_refuses_unchanged (db : DB) (now : Nat)
    (email newCode freshSession : String) (r : TokenRow)
    (h1 : latestTokenFor db email = some r) (h2 : 2 ≤ r.attempts) :
    resendVerification db now email newCode freshSession =
      (ResendResp.refused verifyFailedUrl, db) := by
  unfold resendVerification
  rw [h1]
  simp [h2]

/-- Witness for the amended C2 at a concrete input. -/
theorem resend_cap_refuses_unchanged_w :
    resendVerification dbB 0 "a@b.com" "222222" "S2" =
      (ResendResp.refused verifyFailedUrl, dbB) :=
  resend_cap_refuses_unchanged dbB 0 "a@b.com" "222222" "S2"
    ⟨"a@b.com", "111111", 300, 2, "S1", false, none⟩ rfl (by decide)

/-- C9: when the most recent token row for the email has attempts below 2,
resendVerification inserts a new token row that reuses that row's session
id with attempts incremented by 1 (TTL 180 seconds, unverified) and answers
with that session id; for an email with no prior token row it starts a
fresh episode: attempts=1 and the newly generated session id. -/
theorem resend_issues_new_token (db : DB) (now : Nat)
    (email newCode freshSession : String) :
    (∀ r, latestTokenFor db email = some r → r.attempts < 2 →
        resendVerification db now email newCode freshSession =
          (ResendResp.resent r.sessionId,
            { db with emailTokens := db.emailTokens ++
                [⟨email, newCode, now + 180, r.attempts + 1, r.sessionId, false, none⟩] })) ∧
    (latestTokenFor db email = none →
        resendVerification db now email newCode freshSession =
          (ResendResp.resent freshSession,
            { db with emailTokens := db.emailTokens ++
                [⟨email, newCode, now + 180, 1, freshSession, false, none⟩] })) := by
  constructor
  · intro r h1 h2
    unfold resendVerification
    rw [h1]
    simp [Nat.not_le.mpr h2]
  · intro h1
    unfold resendVerification
    rw [h1]

/-- A database whose only token row for a@b.com has attempts=0 and session
id S1. -/
def dbC : DB :=
  { emptyDB with emailTokens := [⟨"a@b.com", "111111", 300, 0, "S1", false, none⟩] }

/-- Witness for C9 at a concrete input: resending for dbC inserts a row with
attempts=1 reusing session S1. -/
theorem resend_issues_new_token_w :
    resendVerification dbC 10 "a@b.com" "333333" "S9" =
      (ResendResp.resent "S1",
        { dbC with emailTokens := dbC.emailTokens ++
            [⟨"a@b.com", "333333", 190, 1, "S1", false, none⟩] }) :=
  (resend_issues_new_token dbC 10 "a@b.com" "333333" "S9").1
    ⟨"a@b.com", "111111", 300, 0, "S1", false, none⟩ rfl (by decide)

/- ------------------------------------------------------------------
   POST /finalize-account  (part_000 lines 160-250)
   ------------------------------------------------------------------ -/

/-- Client object of the finalize payload. -/
structure ClientPayload where
  companyName : String
  companyEmail : String
  representativeName : String
  title : String
  phoneNumber : String
  passwordHash : Option String
  deriving DecidableEq, Repr

/-- Project object of the finalize payload. -/
structure ProjectPayload where
  name : String
  location : String
  contractReference : String
  deriving DecidableEq, Repr

/-- Contractor or consultant object of the finalize payload; every field may
be absent. -/
structure MemberPayload where
  company : Option String
  email : Option String
  repName : Option String
  repTitle : Option String
  tel : Option String
  deriving DecidableEq, Repr

/-- Team member object of the finalize payload. -/
structure TeamMemberPayload where
  email : Option String
  name : Option String
  position : Option String
  deriving DecidableEq, Repr

/-- The whole finalize-account request body.  The contractor and consultant
objects may be absent (the handler guards with optional chaining); the
team_members field is only iterated when it is an array. -/
structure FinalizePayload where
  client : ClientPayload
  project : ProjectPayload
  contractor : Option MemberPayload
  consultant : Option MemberPayload
  teamMembers : Option (List TeamMemberPayload)
  deriving DecidableEq, Repr

/-- INSERT INTO clients ... ON CONFLICT (company_email) DO UPDATE SET
verified = true RETURNING id: on conflict only the verified flag of the
existing row is updated, and its id is returned; otherwise a fresh row with
verified=true is appended under the next serial id. -/
def upsertClient (db : DB) (now : Nat) (c : ClientPayload) : Nat × DB :=
  match db.clients.find? (fun x => decide (x.companyEmail = c.companyEmail)) with
  | some existing =>
      (existing.id,
        { db with clients := db.clients.map (fun x =>
            if x.companyEmail = c.companyEmail then { x with verified := true } else x) })
  | none =>
      (db.nextClientId,
        { db with
            clients := db.clients ++
              [⟨db.nextClientId, c.companyName, c.companyEmail, c.representativeName,
                c.title, c.phoneNumber, c.passwordHash, true, now⟩],
            nextClientId := db.nextClientId + 1 })

/-- INSERT INTO projects ... ON CONFLICT (name, client_id) DO NOTHING
RETURNING id: on conflict nothing is inserted and RETURNING yields no row,
so the returned id is none; otherwise the fresh serial id. -/
def insertProject (db : DB) (now : Nat) (p : ProjectPayload) (clientId : Nat) :
    Option Nat × DB :=
  if db.projects.any (fun x => decide (x.name = p.name ∧ x.clientId = clientId)) then
    (none, db)
  else
    (some db.nextProjectId,
      { db with
          projects := db.projects ++
            [⟨db.nextProjectId, p.name, p.location, p.contractReference, clientId, now⟩],
          nextProjectId := db.nextProjectId + 1 })

/-- Conflict test of the (email, project_id) unique key on users.  In
Postgres a NULL in a uniquely-constrained column never conflicts, so a
conflict needs both values present and an existing row carrying exactly
those values. -/
def usersKeyConflict (us : List UserRow) : Option String → Option Nat → Bool
  | some e, some p => us.any (fun x => decide (x.email = some e ∧ x.projectId = some p))
  | _, _ => false

/-- INSERT INTO users ... ON CONFLICT (email, project_id) DO NOTHING. -/
def insertUser (db : DB) (u : UserRow) : DB :=
  if usersKeyConflict db.users u.email u.projectId then db
  else { db with users := db.users ++ [u] }

/-- The users row built for the contractor insert. -/
def contractorRow (c : MemberPayload) (pid : Option Nat) (now : Nat) : UserRow :=
  ⟨"Contractor", c.company, c.email, c.repName, c.repTitle, c.tel, pid, none, now⟩

/-- The users row built for the consultant insert. -/
def consultantRow (c : MemberPayload) (pid : Option Nat) (now : Nat) : UserRow :=
  ⟨"Consultant", c.company, c.email, c.repName, c.repTitle, c.tel, pid, none, now⟩

/-- The users row built for a team member insert (no company, phone or
password columns in that INSERT, so they are NULL). -/
def teamMemberRow (m : TeamMemberPayload) (pid : Option Nat) (now : Nat) : UserRow :=
  ⟨"Team Member", none, m.email, m.name, m.position, none, pid, none, now⟩

/-- Contractor stage of the handler: guarded by the truthiness of the
optional-chained email, as in if contractor question-dot email. -/
def contractorInsert (db : DB) (pid : Option Nat) (now : Nat) :
    Option MemberPayload → DB
  | some c => if truthy c.email then insertUser db (contractorRow c pid now) else db
  | none => db

/-- Consultant stage of the handler, with the same guard. -/
def consultantInsert (db : DB) (pid : Option Nat) (now : Nat) :
    Option MemberPayload → DB
  | some c => if truthy c.email then insertUser db (consultantRow c pid now) else db
  | none => db

/-- Team-member stage of the handler: the loop runs only when team_members
is an array, and has NO email guard — every member is inserted. -/
def teamMemberInserts (db : DB) (pid : Option Nat) (now : Nat) :
    Option (List TeamMemberPayload) → DB
  | some tms => tms.foldl (fun d m => insertUser d (teamMemberRow m pid now)) db
  | none => db

/-- The /finalize-account handler: upsert the client, insert the project
(whose returned id is none on conflict), insert the contractor and the
consultant only when their email is truthy, insert every team member
unconditionally, and answer success. -/
def finalizeAccount (db : DB) (now : Nat) (p : FinalizePayload) : Bool × DB :=
  let r1 := upsertClient db now p.client
  let r2 := insertProject r1.2 now p.project r1.1
  (true,
    teamMemberInserts
      (consultantInsert (contractorInsert r2.2 r2.1 now p.contractor) r2.1 now p.consultant)
      r2.1 now p.teamMembers)

/-- Concrete finalize payload: client a@b.com, project Tower, a contractor
with an email, no consultant, no team members. -/
def finPayload : FinalizePayload :=
  ⟨⟨"Acme", "a@b.com", "Rep", "CEO", "070", some "pw"⟩,
   ⟨"Tower", "Lagos", "CR-1"⟩,
   some ⟨some "BuildCo", some "c@x.com", some "Bob", some "PM", some "080"⟩,
   none,
   some []⟩

/-- C3: finalize called twice with the identical payload is NOT idempotent
for membership rows.  The retry reports success and leaves one Client row
and one Project row, but the project insert hits ON CONFLICT DO NOTHING, so
RETURNING yields no id; the contractor is then re-inserted with a NULL
project_id, which never conflicts with the existing (email, project_id)
row, leaving TWO users rows for the one contractor. -/
theorem finalize_retry_not_idempotent :
    (finalizeAccount emptyDB 10 finPayload).1 = true ∧
    (finalizeAccount (finalizeAccount emptyDB 10 finPayload).2 20 finPayload).1 = true ∧
    (finalizeAccount (finalizeAccount emptyDB 10 finPayload).2 20 finPayload).2.clients.length = 1 ∧
    (finalizeAccount (finalizeAccount emptyDB 10 finPayload).2 20 finPayload).2.projects.length = 1 ∧
    (finalizeAccount (finalizeAccount emptyDB 10 finPayload).2 20 finPayload).2.users.length = 2 ∧
    (finalizeAccount (finalizeAccount emptyDB 10 finPayload).2 20 finPayload).2.users.map
        UserRow.projectId = [some 1, none] := by
  decide

/-- Concrete finalize payload whose only member is a team member without an
email. -/
def finPayloadTM : FinalizePayload :=
  ⟨⟨"Acme", "a@b.com", "Rep", "CEO", "070", some "pw"⟩,
   ⟨"Tower", "Lagos", "CR-1"⟩,
   none, none,
   some [⟨none, some "Ngozi", some "Engineer"⟩]⟩

/-- C8 counterexample: a team member without an email is NOT skipped — the
handler has no email guard on the team-member loop, so a users row with a
NULL email is inserted for it (the call does still succeed). -/
theorem finalize_teammember_no_email_cex :
    (finalizeAccount emptyDB 10 finPayloadTM).1 = true ∧
    (finalizeAccount emptyDB 10 finPayloadTM).2.users.length = 1 ∧
    (finalizeAccount emptyDB 10 finPayloadTM).2.users.map UserRow.email = [none] := by
  decide

theorem upsertClient_users (db : DB) (now : Nat) (c : ClientPayload) :
    (upsertClient db now c).2.users = db.users := by
  unfold upsertClient
  cases db.clients.find? (fun x => decide (x.companyEmail = c.companyEmail)) <;> rfl

theorem insertProject_users (db : DB) (now : Nat) (p : ProjectPayload) (cid : Nat) :
    (insertProject db now p cid).2.users = db.users := by
  unfold insertProject
  split <;> rfl

theorem insertUser_users (db : DB) (u : UserRow) :
    (insertUser db u).users = db.users ∨ (insertUser db u).users = db.users ++ [u] := by
  unfold insertUser
  split
  · exact Or.inl rfl
  · exact Or.inr rfl

theorem contractorInsert_skip (db : DB) (pid : Option Nat) (now : Nat)
    (m : Option MemberPayload) (h : truthy (m.bind MemberPayload.email) = false) :
    contractorInsert db pid now m = db := by
  cases m with
  | none => rfl
  | some c =>
      have h2 : truthy c.email = false := h
      simp [contractorInsert, h2]

theorem consultantInsert_skip (db : DB) (pid : Option Nat) (now : Nat)
    (m : Option MemberPayload) (h : truthy (m.bind MemberPayload.email) = false) :
    consultantInsert db pid now m = db := by
  cases m with
  | none => rfl
  | some c =>
      have h2 : truthy c.email = false := h
      simp [consultantInsert, h2]

theorem foldl_teamMember_users (pid : Option Nat) (now : Nat) :
    ∀ (tms : List TeamMemberPayload) (d : DB) (u : UserRow),
      u ∈ (tms.foldl (fun d m => insertUser d (teamMemberRow m pid now)) d).users →
      u ∈ d.users ∨ u.role = "Team Member" := by
  intro tms
  induction tms with
  | nil => intro d u hu; exact Or.inl hu
  | cons m rest ih =>
      intro d u hu
      rcases ih (insertUser d (teamMemberRow m pid now)) u hu with h | h
      · rcases insertUser_users d (teamMemberRow m pid now) with he | he
        · rw [he] at h; exact Or.inl h
        · rw [he] at h
          rcases List.mem_append.mp h with h2 | h2
          · exact Or.inl h2
          · right
            rw [List.mem_singleton.mp h2]
            rfl
      · exact Or.inr h

theorem teamMemberInserts_users (db : DB) (pid : Option Nat) (now : Nat)
    (tmso : Option (List TeamMemberPayload)) (u : UserRow)
    (hu : u ∈ (teamMemberInserts db pid now tmso).users) :
    u ∈ db.users ∨ u.role = "Team Member" := by
  cases tmso with
  | none => exact Or.inl hu
  | some tms => exact foldl_teamMember_users pid now tms db u hu

/-- C8 (amended): a contractor or consultant without a truthy email is
skipped without error — the call still succeeds and every users row it ends
with is either pre-existing or a Team Member row — while team members are
inserted unconditionally (with a NULL email when absent, see the
counterexample); and the membership insert is idempotent exactly on its
(email, project_id) key: when both are present and a row with those values
already exists, the insert is a no-op. -/
theorem finalize_member_email_handling (db : DB) (now : Nat) (p : FinalizePayload)
    (hc : truthy (p.contractor.bind MemberPayload.email) = false)
    (hk : truthy (p.consultant.bind MemberPayload.email) = false) :
    (finalizeAccount db now p).1 = true ∧
    (∀ u ∈ (finalizeAccount db now p).2.users, u ∈ db.users ∨ u.role = "Team Member") ∧
    (∀ (d : DB) (u : UserRow),
        usersKeyConflict d.users u.email u.projectId = true → insertUser d u = d) := by
  refine ⟨rfl, ?_, ?_⟩
  · intro u hu
    have hfin : (finalizeAccount db now p).2 =
        teamMemberInserts
          (consultantInsert
            (contractorInsert
              (insertProject (upsertClient db now p.client).2 now p.project
                (upsertClient db now p.client).1).2
              (insertProject (upsertClient db now p.client).2 now p.project
                (upsertClient db now p.client).1).1 now p.contractor)
            (insertProject (upsertClient db now p.client).2 now p.project
              (upsertClient db now p.client).1).1 now p.consultant)
          (insertProject (upsertClient db now p.client).2 now p.project
            (upsertClient db now p.client).1).1 now p.teamMembers := rfl
    rw [hfin, contractorInsert_skip _ _ _ _ hc, consultantInsert_skip _ _ _ _ hk] at hu
    have hmem := teamMemberInserts_users _ _ _ _ u hu
    rwa [insertProject_users, upsertClient_users] at hmem
  · intro d u h
    unfold insertUser
    simp [h]

/-- Witness for the amended C8 at a concrete input: the payload with only an
email-less team member succeeds and its users rows are all Team Member
rows. -/
theorem finalize_member_email_handling_w :
    (finalizeAccount emptyDB 10 finPayloadTM).1 = true ∧
    (∀ u ∈ (finalizeAccount emptyDB 10 finPayloadTM).2.users,
        u ∈ emptyDB.users ∨ u.role = "Team Member") :=
  ⟨(finalize_member_email_handling emptyDB 10 finPayloadTM rfl rfl).1,
   (finalize_member_email_handling emptyDB 10 finPayloadTM rfl rfl).2.1⟩

/- ------------------------------------------------------------------
   POST /verify-login  (part_000 lines 253-285)
   POST /reset-password  (part_000 lines 318-346)
   ------------------------------------------------------------------ -/

/-- Response of /verify-login. -/
inductive LoginResp where
  | invalidRole
  | notFound
  | firstLogin
  | incorrectPassword
  | success
  deriving DecidableEq, Repr

/-- Outcome once a row has been found: a falsy stored password_hash answers
firstLogin; otherwise the handler compares the STORED VALUE to the
SUBMITTED PASSWORD by plain string inequality (password_hash !== password)
and answers success exactly when the two strings are equal.  No hashing is
involved anywhere in this comparison. -/
def passwordOutcome (stored : Option String) (password : String) : LoginResp :=
  if ¬ truthy stored then LoginResp.firstLogin
  else if stored ≠ some password then LoginResp.incorrectPassword
  else LoginResp.success

/-- The /verify-login handler: dispatch the role to a table and email
column, look up the first row with that email, then decide with
passwordOutcome. -/
def verifyLogin (db : DB) (role email password : String) : LoginResp :=
  if role = "client" then
    match db.clients.find? (fun c => decide (c.companyEmail = email)) with
    | none => LoginResp.notFound
    | some u => passwordOutcome u.passwordHash password
  else if role = "consultant" ∨ role = "contractor" then
    match db.users.find? (fun u => decide (u.email = some email)) with
    | none => LoginResp.notFound
    | some u => passwordOutcome u.passwordHash password
  else if role = "consultant_pm" ∨ role = "contractor_pm" ∨ role = "team_member" then
    match db.teamMembers.find? (fun t => decide (t.email = email)) with
    | none => LoginResp.notFound
    | some u => passwordOutcome u.passwordHash password
  else LoginResp.invalidRole

/-- Result rows of the SELECT in /reset-password: email and token match and
the row is unexpired.  Note there is no session or verified check here. -/
def resetTokenMatches (db : DB) (now : Nat) (email token : String) : List TokenRow :=
  db.emailTokens.filter (fun r => decide (r.email = email ∧ r.token = token ∧ now < r.expiresAt))

/-- UPDATE table SET password_hash = $1 WHERE emailField = $2, with the
role-to-table dispatch of /reset-password: client goes to clients,
consultant and contractor to users, every other role string to
team_members.  The submitted password is stored AS IS — no hashing. -/
def setPasswordByRole (db : DB) (role email pw : String) : DB :=
  if role = "client" then
    { db with clients := db.clients.map (fun c =>
        if c.companyEmail = email then { c with passwordHash := some pw } else c) }
  else if role = "consultant" ∨ role = "contractor" then
    { db with users := db.users.map (fun u =>
        if u.email = some email then { u with passwordHash := some pw } else u) }
  else
    { db with teamMembers := db.teamMembers.map (fun t =>
        if t.email = email then { t with passwordHash := some pw } else t) }

/-- The /reset-password handler: reject when no unexpired (email, token) row
exists; otherwise store the submitted password verbatim in the password_hash
column of the role's table and delete every email_tokens row of that
email. -/
def resetPassword (db : DB) (now : Nat) (email role token password : String) : Bool × DB :=
  if resetTokenMatches db now email token = [] then (false, db)
  else
    let db1 := setPasswordByRole db role email password
    (true, { db1 with emailTokens := db1.emailTokens.filter (fun r => decide (r.email ≠ email)) })

/-- A database with one passwordless verified client for a@b.com and one
unexpired reset token TOK1 for that email. -/
def dbLogin : DB :=
  { emptyDB with
      clients := [⟨1, "Acme", "a@b.com", "Rep", "CEO", "070", none, true, 0⟩],
      emailTokens := [⟨"a@b.com", "TOK1", 100, 0, "S1", false, none⟩],
      nextClientId := 2 }

/-- C4: the code stores and compares passwords in cleartext, never hashed.
Running the reset flow with new password hunter2 stores the literal string
hunter2 in the password_hash column, and the subsequent login decides its
outcome by plain string equality of the submitted password against that
stored cleartext: the same string succeeds, any other string is rejected.
This refutes the claim that the outcome is decided by a one-way salted-hash
comparison and that stored passwords are never plaintext-comparable. -/
theorem password_stored_and_compared_plaintext :
    (resetPassword dbLogin 10 "a@b.com" "client" "TOK1" "hunter2").1 = true ∧
    (resetPassword dbLogin 10 "a@b.com" "client" "TOK1" "hunter2").2.clients.map
        ClientRow.passwordHash = [some "hunter2"] ∧
    verifyLogin (resetPassword dbLogin 10 "a@b.com" "client" "TOK1" "hunter2").2
        "client" "a@b.com" "hunter2" = LoginResp.success ∧
    verifyLogin (resetPassword dbLogin 10 "a@b.com" "client" "TOK1" "hunter2").2
        "client" "a@b.com" "other" = LoginResp.incorrectPassword := by
  decide

/- ------------------------------------------------------------------
   POST /sendgrid-events  (part_000 lines 349-361)
   ------------------------------------------------------------------ -/

/-- One well-formed webhook event object. -/
structure SGEvent where
  event : String
  email : String
  deriving DecidableEq, Repr

/-- Event types the handler treats as hard delivery failures. -/
def hardFailure (t : String) : Bool :=
  decide (t = "bounce" ∨ t = "dropped" ∨ t = "blocked")

/-- Effect of one loop iteration: a hard-failure event runs UPDATE clients
SET verified=false WHERE company_email = email — ONLY the clients table is
touched — and any other event type does nothing. -/
def processEvent (db : DB) (e : SGEvent) : DB :=
  if hardFailure e.event then
    { db with clients := db.clients.map (fun c =>
        if c.companyEmail = e.email then { c with verified := false } else c) }
  else db

/-- The /sendgrid-events handler.  A batch entry is some e when it is a
well-formed object and none when it is malformed (reading e.event would
throw).  The handler has no try/catch, so a malformed entry aborts the
loop: earlier updates stand, later entries are never processed, and the
200 OK acknowledgment is never sent (result status none); a fully
well-formed batch is processed in order and acknowledged with 200. -/
def sendgridEvents : DB → List (Option SGEvent) → Option Nat × DB
  | db, [] => (some 200, db)
  | db, none :: _ => (none, db)
  | db, some e :: rest => sendgridEvents (processEvent db e) rest

/-- A database whose only account for t@x.com is a verified team member. -/
def dbTM : DB :=
  { emptyDB with teamMembers := [⟨"t@x.com", some "pw", true⟩] }

/-- C6 counterexample: a bounce event for an email that appears in the
team_members partition leaves that row verified=true — the handler only
ever updates the clients table, not all partitions. -/
theorem bounce_other_partitions_cex :
    (sendgridEvents dbTM [some ⟨"bounce", "t@x.com"⟩]).1 = some 200 ∧
    (sendgridEvents dbTM [some ⟨"bounce", "t@x.com"⟩]).2.teamMembers.map
        TMRow.verified = [true] := by
  decide

/-- C6 (amended): for a hard-failure event (bounce, dropped or blocked) the
handler flips verified=false on every CLIENTS row whose company_email
matches, and touches nothing else: the users, team_members and email_tokens
tables come back unchanged. -/
theorem bounce_deverifies_clients_only (db : DB) (e : SGEvent)
    (h : hardFailure e.event = true) :
    (∀ c ∈ (processEvent db e).clients, c.companyEmail = e.email → c.verified = false) ∧
    (processEvent db e).users = db.users ∧
    (processEvent db e).teamMembers = db.teamMembers ∧
    (processEvent db e).emailTokens = db.emailTokens := by
  unfold processEvent
  rw [if_pos h]
  refine ⟨?_, rfl, rfl, rfl⟩
  intro c hc hmail
  obtain ⟨x, _, rfl⟩ := List.mem_map.mp hc
  by_cases hx : x.companyEmail = e.email
  · simp [hx]
  · simp only [if_neg hx] at hmail ⊢
    exact absurd hmail hx

/-- Witness for the amended C6 at a concrete input. -/
theorem bounce_deverifies_clients_only_w :
    (∀ c ∈ (processEvent dbTM ⟨"bounce", "t@x.com"⟩).clients,
        c.companyEmail = "t@x.com" → c.verified = false) ∧
    (processEvent dbTM ⟨"bounce", "t@x.com"⟩).users = dbTM.users ∧
    (processEvent dbTM ⟨"bounce", "t@x.com"⟩).teamMembers = dbTM.teamMembers ∧
    (processEvent dbTM ⟨"bounce", "t@x.com"⟩).emailTokens = dbTM.emailTokens :=
  bounce_deverifies_clients_only dbTM ⟨"bounce", "t@x.com"⟩ rfl

/-- A database with one verified client for a@b.com. -/
def dbCl : DB :=
  { emptyDB with
      clients := [⟨1, "Acme", "a@b.com", "Rep", "CEO", "070", none, true, 0⟩],
      nextClientId := 2 }

/-- C7 counterexample: a batch whose first entry is malformed and whose
second entry is a valid bounce event is NOT processed independently: the
loop throws on the first entry, the valid bounce is never applied (the
client stays verified), and the 200 OK acknowledgment is never sent. -/
theorem webhook_malformed_cex :
    (sendgridEvents dbCl [none, some ⟨"bounce", "a@b.com"⟩]).1 = none ∧
    (sendgridEvents dbCl [none, some ⟨"bounce", "a@b.com"⟩]).2.clients.map
        ClientRow.verified = [true] := by
  decide

/-- C7 (amended): a fully well-formed batch — including the empty batch —
is processed entry by entry in order (folding processEvent over the events)
and always acknowledged with 200; but a malformed entry aborts the loop at
that point, so later entries are not processed and no 200 acknowledgment is
sent (see the counterexample). -/
theorem webhook_wellformed_acks (db : DB) (es : List SGEvent) :
    sendgridEvents db (es.map Option.some) = (some 200, es.foldl processEvent db) := by
  induction es generalizing db with
  | nil => rfl
  | cons e rest ih =>
      rw [List.map_cons]
      show sendgridEvents (processEvent db e) (rest.map Option.some) =
        (some 200, rest.foldl processEvent (processEvent db e))
      exact ih (processEvent db e)

end OneProject
